import Mathlib

/-!
Verification of the ai-hero day-1 chat application.

The definitions below are a shallow embedding of
`src/app/api/chat/route.ts` (the POST handler: auth, user lookup, body
validation, daily quota gate, request logging, streamText configuration,
and the searchWeb tool's execute function) and of the client chat page
(form-submit guard, per-tool-call expand/collapse map, and result-item
rendering). Theorems at the end settle the specification's claims.
-/

set_option maxRecDepth 4096

namespace AiHero

/-! ## Data model -/

/-- A raw tool-result item as the client reads it: every field may be
absent (the client uses `??` fallback chains). -/
structure RawItem where
  title : Option String := none
  name : Option String := none
  link : Option String := none
  url : Option String := none
  snippet : Option String := none
  description : Option String := none
  deriving Repr, DecidableEq

/-- One semantic unit of a message: a text part (`type === "text"`)
or a tool part (`type === "tool-..."` with a state and optional output). -/
inductive Part where
  | text (t : String)
  | tool (state : String) (output : Option (List RawItem))
  deriving Repr, DecidableEq

/-- `p.type === "text"` on a part. -/
def Part.isText : Part → Bool
  | .text _ => true
  | .tool _ _ => false

/-- A UI message: `{ id, role, parts }`. -/
structure Message where
  id : String
  role : String
  parts : List Part
  deriving Repr, DecidableEq

/-- A row of the `users` table as selected by the handler:
`{ id: users.id, isAdmin: users.isAdmin }`. -/
structure DbUser where
  id : String
  isAdmin : Bool
  deriving Repr, DecidableEq

/-- A row of the `requestLogs` table: `{ userId, createdAt }`
(timestamps as naturals). -/
structure RequestLog where
  userId : String
  createdAt : Nat
  deriving Repr, DecidableEq

/-! ## The searchWeb tool (route.ts lines 76-105) -/

/-- The abort signal handed to the tool's execute function; modelled as
an abstract token that the tool forwards to the provider. -/
structure AbortSignal where
  token : Nat
  deriving Repr, DecidableEq

/-- The argument object passed to `searchSerper`: `{ q: query, num: 10 }`. -/
structure SerperRequest where
  q : String
  num : Nat
  deriving Repr, DecidableEq

/-- One entry of the provider's `organic` results list. -/
structure OrganicResult where
  title : String
  link : String
  snippet : String
  deriving Repr, DecidableEq

/-- The provider response used by the tool: `results.organic`. -/
structure SerperResponse where
  organic : List OrganicResult
  deriving Repr, DecidableEq

/-- The item shape returned by the tool: `{ title, link, snippet }`. -/
structure ToolResultItem where
  title : String
  link : String
  snippet : String
  deriving Repr, DecidableEq

/-- The request object and abort signal with which `execute` invokes
`searchSerper`: `searchSerper({ q: query, num: 10 }, abortSignal)`. -/
def searchWebCall (query : String) (abortSignal : AbortSignal) :
    SerperRequest × AbortSignal :=
  ({ q := query, num := 10 }, abortSignal)

/-- The body of the tool's `execute`, given the outcome of the awaited
`searchSerper` call: on success it maps `results.organic` to
`{title, link, snippet}` items; on a caught error it returns the single
synthetic item `[{ title: "Search error", link: "", snippet: message }]`. -/
def executeSearchWeb (providerOutcome : Except String SerperResponse) :
    List ToolResultItem :=
  match providerOutcome with
  | .ok results =>
      results.organic.map fun r =>
        { title := r.title, link := r.link, snippet := r.snippet }
  | .error message =>
      [{ title := "Search error", link := "", snippet := message }]

/-! ## streamText configuration (route.ts lines 107-111) -/

/-- The scalar options passed to `streamText` in the route. -/
structure StreamTextOptions where
  toolChoice : String
  maxRetries : Nat
  stopWhenStepCount : Nat
  includeRawChunks : Bool
  deriving Repr, DecidableEq

/-- `toolChoice: "auto", maxRetries: 3, stopWhen: stepCountIs(10),
includeRawChunks: true`. -/
def routeStreamTextOptions : StreamTextOptions :=
  { toolChoice := "auto"
    maxRetries := 3
    stopWhenStepCount := 10
    includeRawChunks := true }

/-! ## The POST handler (route.ts lines 19-145) -/

/-- What the handler produces: a JSON error response with a status code,
a thrown error, or a started model stream (the `streamText` call with
its options). -/
inductive PostResult where
  | jsonResponse (status : Nat) (error : String)
  | thrown (message : String)
  | stream (options : StreamTextOptions)
  deriving Repr, DecidableEq

/-- Whether the handler reached the model call. -/
def PostResult.isStream : PostResult → Bool
  | .stream _ => true
  | _ => false

/-- The environment a single POST request runs in: the resolved
`session?.user?.id`, the `users` table, the `requestLogs` table, the
configured `DAILY_REQUEST_LIMIT`, the value of `date_trunc('day', now())`,
the current time, and the parsed `messages` field of the JSON body
(`none` models a missing or non-array value). -/
structure PostEnv where
  sessionUserId : Option String
  users : List DbUser
  logs : List RequestLog
  dailyLimit : Nat
  startOfToday : Nat
  now : Nat
  messages : Option (List Message)
  deriving Repr, DecidableEq

/-- `db.select(...).from(users).where(eq(users.id, uid)).limit(1)`:
the first users row whose id equals `uid`. -/
def dbSelectUser (users : List DbUser) (uid : String) : Option DbUser :=
  users.find? fun u => u.id = uid

/-- The quota query: `count(*)` of `requestLogs` rows with
`userId = uid` and `createdAt >= date_trunc('day', now())`. -/
def todayCount (logs : List RequestLog) (uid : String)
    (startOfToday : Nat) : Nat :=
  (logs.filter fun l => l.userId = uid && startOfToday ≤ l.createdAt).length

/-- The POST handler, returning its result together with the
`requestLogs` table after the request (the `db.insert` appends a row). -/
def POST (env : PostEnv) : PostResult × List RequestLog :=
  match env.sessionUserId with
  | none => (.jsonResponse 401 "Unauthorized", env.logs)
  | some uid =>
    match dbSelectUser env.users uid with
    | none => (.jsonResponse 401 "User not found", env.logs)
    | some dbUser =>
      match env.messages with
      | none => (.thrown "No messages provided", env.logs)
      | some msgs =>
        if msgs.isEmpty then (.thrown "No messages provided", env.logs)
        else
          let record :=
            env.logs ++ [{ userId := dbUser.id, createdAt := env.now }]
          if dbUser.isAdmin then
            (.stream routeStreamTextOptions, record)
          else
            let reqCount := todayCount env.logs dbUser.id env.startOfToday
            if reqCount ≥ env.dailyLimit then
              (.jsonResponse 429 "Daily request limit reached", env.logs)
            else
              (.stream routeStreamTextOptions, record)

/-! ## The orchestration step loop -/

/-- A stream event kind, restricted to what the step-budget claim needs. -/
inductive StreamEvent where
  | stepBoundary
  | doneEvent
  deriving Repr, DecidableEq

/-- Modelled from the spec: the `streamText` step loop itself lives in the
AI SDK library, not in this repository's sources; the route only configures
it (`stopWhen: stepCountIs(10)`). Per the spec, each step of the loop runs
the model (here abstracted as a predicate saying whether the step requests
a tool call), emits a step-boundary, and repeats until the model emits a
step with no tool calls or the step count reaches the maximum, whichever
is first; reaching the maximum is not an error and the stream ends with a
`done` event. `remaining` is the number of steps still inside the budget. -/
def runLoop (modelRequestsTool : Nat → Bool) (stepIdx : Nat) :
    Nat → List StreamEvent
  | 0 => [.doneEvent]
  | remaining + 1 =>
    .stepBoundary ::
      (if modelRequestsTool stepIdx then
        runLoop modelRequestsTool (stepIdx + 1) remaining
      else
        [.doneEvent])

/-! ## Client: form submission (part_001 lines 54-66, 249-263) -/

/-- The `useChat` status values the page consults. -/
inductive ChatStatus where
  | ready
  | submitted
  | streaming
  | error
  deriving Repr, DecidableEq

/-- What a form submission does. -/
inductive SubmitAction where
  | nothing
  | showSignInModal
  | send (text : String)
  deriving Repr, DecidableEq

/-- `onFormSubmit`: returns early when the trimmed input is empty or the
status is streaming/submitted; shows the sign-in modal when not
authenticated; otherwise sends the message. -/
def onFormSubmit (input : String) (status : ChatStatus)
    (isAuthenticated : Bool) : SubmitAction :=
  if input.trim = "" || status = .streaming || status = .submitted then
    .nothing
  else if !isAuthenticated then
    .showSignInModal
  else
    .send input

/-- The chat input's `disabled` attribute. -/
def inputDisabled (status : ChatStatus) (isAuthenticated : Bool) : Bool :=
  status = .streaming || status = .submitted || !isAuthenticated

/-- The submit button's `disabled` attribute. -/
def buttonDisabled (status : ChatStatus) (input : String)
    (isAuthenticated : Bool) : Bool :=
  status = .streaming || status = .submitted || input.trim = "" ||
    !isAuthenticated

/-! ## Client: expand/collapse state (part_001 lines 43, 145-183) -/

/-- The `expandedResults` record: a flat map from string keys to booleans;
`none` models an absent key (JS `undefined`). -/
def ExpandedResults : Type := String → Option Bool

/-- The initial state `{}`. -/
def emptyExpanded : ExpandedResults := fun _ => none

/-- JS truthiness of `expandedResults[key]` under `!!` or in a boolean
position: absent reads as `false`. -/
def readExpanded (m : ExpandedResults) (key : String) : Bool :=
  (m key).getD false

/-- The key of one tool call's collapsible: `` `${message.id}-${index}` ``. -/
def resultKey (messageId : String) (index : Nat) : String :=
  messageId ++ "-" ++ toString index

/-- The toggle handler:
`setExpandedResults((prev) => ({ ...prev, [key]: !prev[key] }))`
(`!prev[key]` is `true` when the key is absent). -/
def toggleExpanded (prev : ExpandedResults) (key : String) :
    ExpandedResults :=
  fun k => if k = key then some (! readExpanded prev key) else prev k

/-! ## Client: result-item rendering (part_001 lines 185-218) -/

/-- What the `<li>` for one result item structurally contains. -/
structure RenderedItem where
  /-- an `<a href={link}>` wraps the title (`link ? <a ...> : <span ...>`) -/
  rendersAnchor : Bool
  /-- the title is the red error `<span>` (the non-link branch) -/
  titleErrorStyled : Bool
  /-- the snippet div carries the red error class (`isError`) -/
  snippetErrorStyled : Bool
  deriving Repr, DecidableEq

/-- The resolved fields of one raw item, as computed at render time. -/
def resolvedTitle (item : RawItem) (idx : Nat) : String :=
  item.title.getD (item.name.getD ("Result " ++ toString (idx + 1)))

/-- `item?.link ?? item?.url ?? ""`. -/
def resolvedLink (item : RawItem) : String :=
  item.link.getD (item.url.getD "")

/-- `item?.snippet ?? item?.description ?? ""`. -/
def resolvedSnippet (item : RawItem) : String :=
  item.snippet.getD (item.description.getD "")

/-- The rendering of one item in the result list. -/
def renderItem (item : RawItem) (idx : Nat) : RenderedItem :=
  let title := resolvedTitle item idx
  let link := resolvedLink item
  let isError := title = "Search error" || link = ""
  { rendersAnchor := !(link = "")
    titleErrorStyled := link = ""
    snippetErrorStyled := isError }

/-- How a tool result item crosses the wire to the client: all three
fields present. -/
def ToolResultItem.toRaw (item : ToolResultItem) : RawItem :=
  { title := some item.title
    link := some item.link
    snippet := some item.snippet }

/-! ## Client: message text extraction (part_001 lines 95-98) -/

/-- The text of a text part. -/
def Part.textOf : Part → Option String
  | .text t => some t
  | .tool _ _ => none

/-- `const textPart = message.parts.find((p) => p.type === "text");
if (textPart && "text" in textPart) text = textPart.text ?? "";` -/
def extractText (parts : List Part) : String :=
  ((parts.find? Part.isText).bind Part.textOf).getD ""

/-! ## Helper lemmas -/

/-- The step loop always ends with the single `done` event. -/
theorem runLoop_eq_concat (model : Nat → Bool) :
    ∀ n stepIdx, ∃ l, runLoop model stepIdx n = l ++ [StreamEvent.doneEvent] := by
  intro n
  induction n with
  | zero => intro stepIdx; exact ⟨[], rfl⟩
  | succ k ih =>
    intro stepIdx
    by_cases h : model stepIdx = true
    · obtain ⟨l, hl⟩ := ih (stepIdx + 1)
      exact ⟨.stepBoundary :: l, by simp [runLoop, h, hl]⟩
    · exact ⟨[.stepBoundary], by simp [runLoop, h]⟩

/-- The step loop emits at most `n` step-boundaries when `n` steps
remain in the budget. -/
theorem runLoop_count_le (model : Nat → Bool) :
    ∀ n stepIdx,
      (runLoop model stepIdx n).count StreamEvent.stepBoundary ≤ n := by
  intro n
  induction n with
  | zero => intro stepIdx; simp [runLoop, List.count_singleton]
  | succ k ih =>
    intro stepIdx
    by_cases h : model stepIdx = true
    · simpa [runLoop, h, List.count_cons] using
        Nat.add_le_add_right (ih (stepIdx + 1)) 1
    · simp [runLoop, h, List.count_cons, List.count_singleton]

/-! ## Concrete instances used by witnesses -/

/-- A one-part user message. -/
def msgHello : Message := { id := "m1", role := "user", parts := [Part.text "hi"] }

/-- The non-admin user u1. -/
def uC1 : DbUser := { id := "u1", isAdmin := false }

/-- An environment with one non-admin user, limit 3, and one of the three
logged requests inside the current day. -/
def envC1 : PostEnv :=
  { sessionUserId := some "u1"
    users := [uC1]
    logs := [{ userId := "u1", createdAt := 100 },
             { userId := "u2", createdAt := 101 },
             { userId := "u1", createdAt := 5 }]
    dailyLimit := 3
    startOfToday := 50
    now := 120
    messages := some [msgHello] }

/-- An environment where u1 is exactly at a daily limit of 1. -/
def envAtLimit : PostEnv :=
  { sessionUserId := some "u1"
    users := [uC1]
    logs := [{ userId := "u1", createdAt := 100 }]
    dailyLimit := 1
    startOfToday := 50
    now := 120
    messages := some [msgHello] }

/-- A provider response with three organic results. -/
def respC5 : SerperResponse :=
  { organic :=
      [{ title := "A", link := "https://a.example", snippet := "sa" },
       { title := "B", link := "https://b.example", snippet := "sb" },
       { title := "C", link := "https://c.example", snippet := "sc" }] }

/-! ## Claim theorems -/

/-- C1: for a non-admin identity the request reaches the model call
exactly when today's recorded event count for that identity is strictly
below the configured daily limit; at or above the limit the response is
429 with error "Daily request limit reached"; an admin identity always
reaches the model call regardless of count. -/
theorem quota_gate_allows_iff_below_limit (env : PostEnv) (uid : String)
    (u : DbUser) (msgs : List Message)
    (hs : env.sessionUserId = some uid)
    (hu : dbSelectUser env.users uid = some u)
    (hm : env.messages = some msgs) (hne : msgs ≠ []) :
    (u.isAdmin = false →
      (((POST env).1.isStream = true) ↔
        todayCount env.logs u.id env.startOfToday < env.dailyLimit) ∧
      (env.dailyLimit ≤ todayCount env.logs u.id env.startOfToday →
        (POST env).1 =
          PostResult.jsonResponse 429 "Daily request limit reached")) ∧
    (u.isAdmin = true →
      (POST env).1 = PostResult.stream routeStreamTextOptions) := by
  have hne' : msgs.isEmpty = false := by
    simpa [List.isEmpty_iff] using hne
  refine ⟨fun hadm => ⟨?_, fun hc => ?_⟩, fun hadm => ?_⟩
  · by_cases hc :
        env.dailyLimit ≤ todayCount env.logs u.id env.startOfToday
    · simp [POST, hs, hu, hm, hne', hadm, ge_iff_le, hc,
        PostResult.isStream]
      try omega
    · simp [POST, hs, hu, hm, hne', hadm, ge_iff_le, hc,
        PostResult.isStream]
      try omega
  · simp [POST, hs, hu, hm, hne', hadm, ge_iff_le, hc]
  · simp [POST, hs, hu, hm, hne', hadm]

/-- Witness for C1: in `envC1` user u1 is non-admin with 1 of 3 daily
requests used, so the request reaches the model call. -/
theorem quota_gate_allows_iff_below_limit_witness :
    envC1.sessionUserId = some "u1" ∧
    dbSelectUser envC1.users "u1" = some uC1 ∧
    envC1.messages = some [msgHello] ∧
    [msgHello] ≠ [] ∧
    ((uC1.isAdmin = false →
      (((POST envC1).1.isStream = true) ↔
        todayCount envC1.logs uC1.id envC1.startOfToday < envC1.dailyLimit) ∧
      (envC1.dailyLimit ≤ todayCount envC1.logs uC1.id envC1.startOfToday →
        (POST envC1).1 =
          PostResult.jsonResponse 429 "Daily request limit reached")) ∧
    (uC1.isAdmin = true →
      (POST envC1).1 = PostResult.stream routeStreamTextOptions)) :=
  ⟨rfl, rfl, rfl, by simp,
    quota_gate_allows_iff_below_limit envC1 "u1" uC1 [msgHello]
      rfl rfl rfl (by simp)⟩

/-- C2: when the underlying search call fails with any error message, the
tool's execute function returns exactly the one-element list
`[{title: "Search error", link: "", snippet: message}]` instead of
propagating the exception. -/
theorem searchWeb_failure_returns_synthetic_item (message : String) :
    executeSearchWeb (Except.error message) =
      [{ title := "Search error", link := "", snippet := message }] := rfl

/-- C3: every JSON error response (401/429) leaves the request log
unchanged and makes no model call; every request that reaches the model
call records exactly one request-log event for the resolved identity. -/
theorem rejected_requests_record_no_event (env : PostEnv) (status : Nat)
    (err : String) :
    ((POST env).1 = PostResult.jsonResponse status err →
      (POST env).2 = env.logs ∧ (POST env).1.isStream = false) ∧
    ((POST env).1.isStream = true →
      ∃ uid u, env.sessionUserId = some uid ∧
        dbSelectUser env.users uid = some u ∧
        (POST env).2 =
          env.logs ++ [{ userId := u.id, createdAt := env.now }]) := by
  rcases hs : env.sessionUserId with _ | uid
  · simp [POST, hs, PostResult.isStream]
  · rcases hu : dbSelectUser env.users uid with _ | u
    · simp [POST, hs, hu, PostResult.isStream]
    · rcases hm : env.messages with _ | msgs
      · simp [POST, hs, hu, hm, PostResult.isStream]
      · by_cases hne : msgs.isEmpty
        · simp [POST, hs, hu, hm, hne, PostResult.isStream]
        · by_cases hadm : u.isAdmin
          · simp only [POST, hs, hu, hm, hne, hadm, Bool.false_eq_true,
              if_false, if_true, PostResult.isStream]
            exact ⟨fun h => by simp at h, fun _ => ⟨uid, u, rfl, hu, rfl⟩⟩
          · by_cases hq :
                todayCount env.logs u.id env.startOfToday ≥ env.dailyLimit
            · simp [POST, hs, hu, hm, hne, hadm, hq, PostResult.isStream]
            · simp only [POST, hs, hu, hm, hne, hadm, hq,
                Bool.false_eq_true, if_false, if_true, PostResult.isStream]
              exact ⟨fun h => by simp at h, fun _ => ⟨uid, u, rfl, hu, rfl⟩⟩

/-- Witness for C3: in `envAtLimit` the request is rejected with 429 and
the request log is unchanged, with no model call. -/
theorem rejected_requests_record_no_event_witness :
    (POST envAtLimit).1 =
      PostResult.jsonResponse 429 "Daily request limit reached" ∧
    ((POST envAtLimit).2 = envAtLimit.logs ∧
      (POST envAtLimit).1.isStream = false) :=
  ⟨rfl,
    (rejected_requests_record_no_event envAtLimit 429
        "Daily request limit reached").1 rfl⟩

/-- C4: the route configures the loop with a maximum step count of 10 and
maximum of 3 automatic retries; for every model (in particular one that
requests a tool call on every step) the loop emits at most 10
step-boundaries and always terminates with a final done event, and the
always-tool-calling model reaches exactly 10 steps. -/
theorem step_loop_bounded_and_terminates :
    routeStreamTextOptions.stopWhenStepCount = 10 ∧
    routeStreamTextOptions.maxRetries = 3 ∧
    (∀ (model : Nat → Bool) (stepIdx : Nat),
      (runLoop model stepIdx routeStreamTextOptions.stopWhenStepCount).count
          StreamEvent.stepBoundary ≤ 10 ∧
      (runLoop model stepIdx
          routeStreamTextOptions.stopWhenStepCount).getLast? =
        some StreamEvent.doneEvent) ∧
    (runLoop (fun _ => true) 0
        routeStreamTextOptions.stopWhenStepCount).count
      StreamEvent.stepBoundary = 10 := by
  refine ⟨rfl, rfl, fun model stepIdx => ⟨?_, ?_⟩, by decide⟩
  · exact runLoop_count_le model 10 stepIdx
  · obtain ⟨l, hl⟩ := runLoop_eq_concat model 10 stepIdx
    rw [show routeStreamTextOptions.stopWhenStepCount = 10 from rfl, hl]
    exact List.getLast?_concat _

/-- C5: a successful searchWeb invocation calls the provider with the
given query, a result count of 10 and the external abort signal, maps the
provider's organic results to `{title, link, snippet}` items, and returns
at most 10 items whenever the provider honours the requested count. -/
theorem searchWeb_success_shape (query : String) (signal : AbortSignal)
    (resp : SerperResponse) (hlen : resp.organic.length ≤ 10) :
    searchWebCall query signal = ({ q := query, num := 10 }, signal) ∧
    executeSearchWeb (Except.ok resp) =
      resp.organic.map (fun r =>
        { title := r.title, link := r.link, snippet := r.snippet }) ∧
    (executeSearchWeb (Except.ok resp)).length ≤ 10 :=
  ⟨rfl, rfl, by simpa [executeSearchWeb] using hlen⟩

/-- Witness for C5: a concrete three-result provider response. -/
theorem searchWeb_success_shape_witness :
    respC5.organic.length ≤ 10 ∧
    (searchWebCall "capital of France" ⟨0⟩ =
        ({ q := "capital of France", num := 10 }, (⟨0⟩ : AbortSignal)) ∧
      executeSearchWeb (Except.ok respC5) =
        respC5.organic.map (fun r =>
          { title := r.title, link := r.link, snippet := r.snippet }) ∧
      (executeSearchWeb (Except.ok respC5)).length ≤ 10) :=
  ⟨by decide,
    searchWeb_success_shape "capital of France" ⟨0⟩ respC5 (by decide)⟩

/-- An item whose title is "Search error" but whose link is nonempty. -/
def c6Item : RawItem :=
  { title := some "Search error"
    link := some "https://attacker.example"
    snippet := some "boom" }

/-- The raw form of a synthetic error item produced by the tool. -/
def c6ErrRaw : RawItem :=
  ToolResultItem.toRaw
    { title := "Search error", link := "", snippet := "network down" }

/-- Counterexample for C6: an item that the claim classifies as a
synthetic error item (its title equals "Search error") but whose link is
nonempty is rendered as an external hyperlink by the presenter. -/
theorem search_error_title_item_still_links :
    resolvedTitle c6Item 0 = "Search error" ∧
    (renderItem c6Item 0).rendersAnchor = true := ⟨rfl, rfl⟩

/-- C6 amended: every tool result item whose resolved link is empty — in
particular every synthetic error item the tool produces, whose link is
always "" — is rendered without a hyperlink, with error-styled title and
snippet; the non-linking decision is based solely on the link being
empty, not on the title. -/
theorem empty_link_items_never_link (item : RawItem) (idx : Nat)
    (h : resolvedLink item = "") :
    (renderItem item idx).rendersAnchor = false ∧
    (renderItem item idx).titleErrorStyled = true ∧
    (renderItem item idx).snippetErrorStyled = true ∧
    (∀ (message : String) (i : Nat) (it : ToolResultItem),
      it ∈ executeSearchWeb (Except.error message) →
      (renderItem it.toRaw i).rendersAnchor = false) := by
  refine ⟨by simp [renderItem, h], by simp [renderItem, h],
    by simp [renderItem, h], ?_⟩
  intro message i it hit
  simp only [executeSearchWeb, List.mem_singleton] at hit
  subst hit
  simp [renderItem, resolvedLink, ToolResultItem.toRaw]

/-- Witness for the amended C6: a concrete synthetic error item. -/
theorem empty_link_items_never_link_witness :
    resolvedLink c6ErrRaw = "" ∧
    ((renderItem c6ErrRaw 0).rendersAnchor = false ∧
      (renderItem c6ErrRaw 0).titleErrorStyled = true ∧
      (renderItem c6ErrRaw 0).snippetErrorStyled = true ∧
      (∀ (message : String) (i : Nat) (it : ToolResultItem),
        it ∈ executeSearchWeb (Except.error message) →
        (renderItem it.toRaw i).rendersAnchor = false)) :=
  ⟨rfl, empty_link_items_never_link c6ErrRaw 0 rfl⟩

/-- C7: while the client status is streaming or submitted, a form
submission performs nothing (no sendMessage call) and both the input
field and the submit button are disabled. -/
theorem in_flight_request_blocks_resubmission (input : String)
    (isAuthenticated : Bool) (status : ChatStatus)
    (h : status = ChatStatus.streaming ∨ status = ChatStatus.submitted) :
    onFormSubmit input status isAuthenticated = SubmitAction.nothing ∧
    inputDisabled status isAuthenticated = true ∧
    buttonDisabled status input isAuthenticated = true := by
  rcases h with h | h <;> subst h <;>
    simp [onFormSubmit, inputDisabled, buttonDisabled]

/-- Witness for C7: streaming status with nonempty input and an
authenticated user. -/
theorem in_flight_request_blocks_resubmission_witness :
    (ChatStatus.streaming = ChatStatus.streaming ∨
      ChatStatus.streaming = ChatStatus.submitted) ∧
    (onFormSubmit "hello" ChatStatus.streaming true = SubmitAction.nothing ∧
      inputDisabled ChatStatus.streaming true = true ∧
      buttonDisabled ChatStatus.streaming "hello" true = true) :=
  ⟨Or.inl rfl,
    in_flight_request_blocks_resubmission "hello" true ChatStatus.streaming
      (Or.inl rfl)⟩

/-- C8: the expand/collapse state is keyed by `messageId + "-" + index`;
an absent key reads as collapsed, so the initial empty map renders every
collapsible collapsed; toggling one key flips exactly that key's boolean
and leaves every other key's value unchanged. -/
theorem expand_collapse_keyed_map (m : ExpandedResults)
    (messageId : String) (index : Nat) (key k : String) (hk : k ≠ key) :
    resultKey messageId index = messageId ++ "-" ++ toString index ∧
    readExpanded emptyExpanded key = false ∧
    readExpanded (toggleExpanded m key) key = ! readExpanded m key ∧
    toggleExpanded m key k = m k := by
  refine ⟨rfl, rfl, ?_, ?_⟩
  · simp [toggleExpanded, readExpanded]
  · simp [toggleExpanded, hk]

/-- Witness for C8: toggling key "m1-0" in the empty map flips it to
expanded and leaves key "m1-1" absent. -/
theorem expand_collapse_keyed_map_witness :
    ("m1-1" : String) ≠ "m1-0" ∧
    (resultKey "m1" 0 = "m1" ++ "-" ++ toString 0 ∧
      readExpanded emptyExpanded "m1-0" = false ∧
      readExpanded (toggleExpanded emptyExpanded "m1-0") "m1-0" =
        ! readExpanded emptyExpanded "m1-0" ∧
      toggleExpanded emptyExpanded "m1-0" "m1-1" = emptyExpanded "m1-1") :=
  ⟨by decide,
    expand_collapse_keyed_map emptyExpanded "m1" 0 "m1-0" "m1-1" (by decide)⟩

/-- C9: for an authenticated request whose user exists but whose messages
field is missing/non-array (`none`) or the empty list, the handler throws
"No messages provided" and records no request-log event; since the
conclusion holds for every log table and every daily limit, the quota
check is never consulted and no model call is made. -/
theorem missing_messages_throw_before_quota (env : PostEnv)
    (uid : String) (u : DbUser)
    (hs : env.sessionUserId = some uid)
    (hu : dbSelectUser env.users uid = some u)
    (hm : env.messages = none ∨ env.messages = some []) :
    POST env = (PostResult.thrown "No messages provided", env.logs) := by
  rcases hm with hm | hm <;> simp [POST, hs, hu, hm]

/-- Witness for C9: `envC1` with the messages field absent. -/
theorem missing_messages_throw_before_quota_witness :
    ({ envC1 with messages := none } : PostEnv).sessionUserId = some "u1" ∧
    dbSelectUser ({ envC1 with messages := none } : PostEnv).users "u1" =
      some uC1 ∧
    (({ envC1 with messages := none } : PostEnv).messages = none ∨
      ({ envC1 with messages := none } : PostEnv).messages = some []) ∧
    POST { envC1 with messages := none } =
      (PostResult.thrown "No messages provided",
        ({ envC1 with messages := none } : PostEnv).logs) :=
  ⟨rfl, rfl, Or.inl rfl,
    missing_messages_throw_before_quota { envC1 with messages := none }
      "u1" uC1 rfl rfl (Or.inl rfl)⟩

/-- C10: the displayed text of a message is the text of the first part
whose type is "text" — independent of everything after that part, so a
second or later text part is never rendered — and the empty string when
the message has no text part. -/
theorem first_text_part_is_displayed (l1 l2 : List Part) (t : String)
    (h : ∀ p ∈ l1, p.isText = false) :
    extractText (l1 ++ Part.text t :: l2) = t ∧
    (∀ parts : List Part, (∀ p ∈ parts, p.isText = false) →
      extractText parts = "") := by
  constructor
  · have hfind : l1.find? Part.isText = none := by
      rw [List.find?_eq_none]
      intro p hp
      simp [h p hp]
    simp [extractText, List.find?_append, hfind, Part.isText, Part.textOf]
  · intro parts hparts
    have hfind : parts.find? Part.isText = none := by
      rw [List.find?_eq_none]
      intro p hp
      simp [hparts p hp]
    simp [extractText, hfind]

/-- Witness for C10: a tool part, then "Paris", then a second text part
"ignored"; the displayed text is "Paris". -/
theorem first_text_part_is_displayed_witness :
    (∀ p ∈ [Part.tool "output-available" none], p.isText = false) ∧
    (extractText
        ([Part.tool "output-available" none] ++
          Part.text "Paris" :: [Part.text "ignored"]) = "Paris" ∧
      (∀ parts : List Part, (∀ p ∈ parts, p.isText = false) →
        extractText parts = "")) :=
  ⟨by simp [Part.isText],
    first_text_part_is_displayed [Part.tool "output-available" none]
      [Part.text "ignored"] "Paris" (by simp [Part.isText])⟩

end AiHero
